import Mathlib

/-
Verification of the ferrostar route-ingestion and trip-tracking core.

Shallow embedding of:
  * src/common/ferrostar-core/src/routing_adapters/osrm/mod.rs
    (OsrmResponseParser::parse_response, RouteStep::from_osrm)
  * src/common/ferrostar/src/navigation_controller/models.rs
    (TripState, NavigationStateUpdate, StepAdvanceMode, StepAdvanceStatus)

Rust f64 values are modelled as exact rationals (ℚ).  Every decoded
coordinate in scope is an integer scaled by 10^precision, and every
comparison performed by the claims is an equality of such values, so the
rational model agrees with IEEE f64 on all of them (both the f64 division
`total / 10^p` and the f64 literal of the same decimal round the same real
number to the same float).
-/

namespace Ferrostar

instance {ε α : Type} [DecidableEq ε] [DecidableEq α] : DecidableEq (Except ε α) := fun a b =>
  match a, b with
  | .error e1, .error e2 =>
    if h : e1 = e2 then .isTrue (by rw [h]) else .isFalse (by simp [h])
  | .ok v1, .ok v2 =>
    if h : v1 = v2 then .isTrue (by rw [h]) else .isFalse (by simp [h])
  | .error _, .ok _ => .isFalse (by simp)
  | .ok _, .error _ => .isFalse (by simp)

/-- Modelled from the missing crate file src/models.rs (used by osrm/mod.rs as
crate::models::GeographicCoordinates): a latitude/longitude pair in degrees.
The conversion from a geo `Coord \x7b x, y \x7d` maps y to lat and x to lng. -/
structure GeographicCoordinates where
  lat : ℚ
  lng : ℚ
deriving DecidableEq

/-- Modelled from the missing crate file src/models.rs (crate::models::RouteStep),
whose exact field set is pinned down by the struct literal in
RouteStep::from_osrm (osrm/mod.rs lines 85-91): the five fields below and no
others.  In particular the produced step does NOT retain the decoded geometry. -/
structure RouteStep where
  start_location : GeographicCoordinates
  end_location : GeographicCoordinates
  distance : ℚ
  road_name : String
  instruction : String
deriving DecidableEq

/-- Modelled from the missing crate file src/routing_adapters/mod.rs
(routing_adapters::Route), whose field set is pinned down by the struct literal
in parse_response (osrm/mod.rs lines 55-59). -/
structure Route where
  geometry : List GeographicCoordinates
  waypoints : List GeographicCoordinates
  steps : List RouteStep
deriving DecidableEq

/- ---------------------------------------------------------------------------
Polyline codec.  The crate calls `polyline::decode_polyline` from the external
georust polyline crate, which is not part of this repository; it is modelled
from the spec (section 4.1).
--------------------------------------------------------------------------- -/

/-- Modelled from the spec: zig-zag decoding of one accumulated varint value
("delta + zig-zag + base-32 varint text encoding").  An odd accumulator r maps
to the negative delta -(r / 2) - 1 (bitwise NOT of r >>> 1 in two's
complement), an even one to r / 2. -/
def zigzagDecode (r : ℕ) : ℤ :=
  if r % 2 = 1 then -((r / 2 : ℕ) : ℤ) - 1 else ((r / 2 : ℕ) : ℤ)

/-- Modelled from the spec: read the chunked base-32 varints of a polyline
string.  Each character contributes (c - 63) ; its low five bits are a chunk
of the current value and bit 5 marks a continuation.  Returns the complete
list of accumulated varint values, or none when the text ends in the middle of
a varint ("truncated mid-codepoint ... does not terminate cleanly").
The arguments carry the shift, the accumulator, and whether a varint is
currently open. -/
def varintValues : List Char → ℕ → ℕ → Bool → Option (List ℕ)
  | [], _, _, inProgress => if inProgress then none else some []
  | c :: rest, shift, acc, _ =>
    let b := c.toNat - 63
    let acc' := acc + b % 32 * 2 ^ shift
    if b < 32 then (varintValues rest 0 0 false).map (acc' :: ·)
    else varintValues rest (shift + 5) acc' true

/-- Modelled from the spec: "one coordinate pair (lat, then lng) per
iteration, accumulating running totals; each produced coordinate is
(lat_total / 10^precision, lng_total / 10^precision)".  Consumes the decoded
varint values two at a time; an odd number of values means the text ended
after a latitude delta and is malformed. -/
def accumulateCoords (p : ℕ) : List ℕ → ℤ → ℤ → Option (List GeographicCoordinates)
  | [], _, _ => some []
  | [_], _, _ => none
  | rlat :: rlng :: rest, lat, lng =>
    let lat' := lat + zigzagDecode rlat
    let lng' := lng + zigzagDecode rlng
    (accumulateCoords p rest lat' lng').map
      (⟨(lat' : ℚ) / 10 ^ p, (lng' : ℚ) / 10 ^ p⟩ :: ·)

/-- Modelled from the spec (section 4.1): `decode(encoded, precision)` for the
classic polyline text encoding.  Fails exactly when the varint stream is
truncated or stops after an unpaired latitude delta. -/
def decode_polyline (s : String) (p : ℕ) : Except String (List GeographicCoordinates) :=
  match varintValues s.toList 0 0 false with
  | none => .error "Cannot decode polyline: truncated varint"
  | some vs =>
    match accumulateCoords p vs 0 0 with
    | none => .error "Cannot decode polyline: unpaired coordinate delta"
    | some coords => .ok coords

/- ---------------------------------------------------------------------------
OSRM wire model.  The schema structs live in the missing repository file
src/routing_adapters/osrm/models.rs; they are modelled from the spec
(section 6) and from the field accesses in osrm/mod.rs.
--------------------------------------------------------------------------- -/

namespace Osrm

/-- Modelled from the spec: "Each waypoint has location: [lng, lat]". -/
structure Location where
  lng : ℚ
  lat : ℚ
deriving DecidableEq

def Location.longitude (l : Location) : ℚ := l.lng

def Location.latitude (l : Location) : ℚ := l.lat

/-- Modelled from the spec: a waypoint object; only the recognized field
`location` is read. -/
structure Waypoint where
  location : Location
deriving DecidableEq

/-- Modelled from the spec: "maneuver (object yielding an instruction string)";
the recognized OSRM subset is the maneuver type, the optional modifier and the
optional dialect-specific instruction text. -/
structure Maneuver where
  maneuverType : String
  modifier : Option String
  instruction : Option String
deriving DecidableEq

/-- Modelled from the spec: "`instruction` is derived from the maneuver's
instruction text (dialect-specific maneuver/modifier fields may refine it, but
the minimum contract is: always populate *some* instruction text)". -/
def Maneuver.get_instruction (m : Maneuver) : String :=
  match m.instruction with
  | some text => text
  | none =>
    match m.modifier with
    | some mod => m.maneuverType ++ " " ++ mod
    | none => m.maneuverType

/-- Modelled from the spec: "Each step has geometry (encoded polyline string),
distance (number, meters), name (string), and maneuver". -/
structure RouteStep where
  geometry : String
  distance : ℚ
  name : String
  maneuver : Maneuver
deriving DecidableEq

/-- Modelled from the spec: a leg is an object `\x7b steps: [...] \x7d`. -/
structure RouteLeg where
  steps : List RouteStep
deriving DecidableEq

/-- Modelled from the spec: "Each route has geometry (encoded polyline string)
and legs (array of \x7b steps: [...] \x7d)". -/
structure OsrmRoute where
  geometry : String
  legs : List RouteLeg
deriving DecidableEq

/-- Modelled from the spec: top-level shape `\x7b routes: [...], waypoints: [...] \x7d`. -/
structure RouteResponse where
  routes : List OsrmRoute
  waypoints : List Waypoint
deriving DecidableEq

end Osrm

/- ---------------------------------------------------------------------------
RouteStep::from_osrm and OsrmResponseParser::parse_response
(src/common/ferrostar-core/src/routing_adapters/osrm/mod.rs, lines 24-93).
--------------------------------------------------------------------------- -/

/-- RouteStep::from_osrm (osrm/mod.rs lines 66-93): decode the step geometry,
take the first coordinate as start_location (error "No coordinates in
geometry" when there is none), the last of the remaining iterator as
end_location (defaulting to start_location), and copy distance, name and the
derived instruction. -/
def RouteStep.from_osrm (value : Osrm.RouteStep) (polyline_precision : ℕ) :
    Except String RouteStep :=
  match decode_polyline value.geometry polyline_precision with
  | .error e => .error e
  | .ok [] => .error "No coordinates in geometry"
  | .ok (start_location :: rest) =>
    let end_location := (rest.getLast?).getD start_location
    .ok { start_location := start_location
          end_location := end_location
          distance := value.distance
          road_name := value.name
          instruction := value.maneuver.get_instruction }

/-- The `for`-loop-with-`?` pattern of parse_response: apply `f` to each
element in order, stopping at (and returning) the first error. -/
def tryMap {α β : Type} (f : α → Except String β) : List α → Except String (List β)
  | [] => .ok []
  | a :: as =>
    match f a with
    | .error e => .error e
    | .ok b =>
      match tryMap f as with
      | .error e => .error e
      | .ok bs => .ok (b :: bs)

/-- Body of the `for route in res.routes` loop of parse_response (osrm/mod.rs
lines 39-60): decode the route geometry, convert every step of every leg in
order, and build the Route with the shared waypoint list. -/
def parseRoute (waypoints : List GeographicCoordinates) (polyline_precision : ℕ)
    (route : Osrm.OsrmRoute) : Except String Route :=
  match decode_polyline route.geometry polyline_precision with
  | .error e => .error e
  | .ok geometry =>
    match tryMap (fun step => RouteStep.from_osrm step polyline_precision)
        (route.legs.flatMap Osrm.RouteLeg.steps) with
    | .error e => .error e
    | .ok steps => .ok { geometry := geometry, waypoints := waypoints, steps := steps }

/-- OsrmResponseParser::parse_response (osrm/mod.rs lines 25-63), after the
serde deserialization stage: convert the waypoint list once, then convert each
route, propagating the first error. -/
def parse_response (res : Osrm.RouteResponse) (polyline_precision : ℕ) :
    Except String (List Route) :=
  let waypoints := res.waypoints.map fun waypoint =>
    { lat := waypoint.location.latitude, lng := waypoint.location.longitude
      : GeographicCoordinates }
  tryMap (parseRoute waypoints polyline_precision) res.routes

/- ---------------------------------------------------------------------------
JSON deserialization stage.  parse_response first runs serde_json against the
schema of the missing file osrm/models.rs; both are modelled from the spec
(sections 4.2 and 6): a schema "tolerant of extra/optional fields" where
"only the recognized subset is read" and "unknown keys are ignored rather
than rejected".
--------------------------------------------------------------------------- -/

/-- A JSON value (the already-lexed form of the response bytes). -/
inductive Json where
  | null : Json
  | bool (b : Bool) : Json
  | num (q : ℚ) : Json
  | str (s : String) : Json
  | arr (elems : List Json) : Json
  | obj (fields : List (String × Json)) : Json

/-- First-match key lookup in a JSON object. -/
def lookupKey : List (String × Json) → String → Option Json
  | [], _ => none
  | (k, v) :: rest, key => if k = key then some v else lookupKey rest key

/-- Modelled from the spec: deserialize `location: [lng, lat]`. -/
def deserializeLocation : Json → Except String Osrm.Location
  | .arr [.num lng, .num lat] => .ok ⟨lng, lat⟩
  | _ => .error "invalid location"

/-- Modelled from the spec: deserialize a waypoint object, reading only the
recognized field `location`. -/
def deserializeWaypoint : Json → Except String Osrm.Waypoint
  | .obj fields =>
    match lookupKey fields "location" with
    | some loc =>
      match deserializeLocation loc with
      | .error e => .error e
      | .ok l => .ok ⟨l⟩
    | none => .error "waypoint: missing location"
  | _ => .error "waypoint: expected object"

/-- Modelled from the spec: deserialize a maneuver object, reading only the
recognized fields `type`, `modifier` and `instruction` (the latter two
optional). -/
def deserializeManeuver : Json → Except String Osrm.Maneuver
  | .obj fields =>
    match lookupKey fields "type" with
    | some (.str t) =>
      let modifier := match lookupKey fields "modifier" with
        | some (.str m) => some m
        | _ => none
      let instruction := match lookupKey fields "instruction" with
        | some (.str i) => some i
        | _ => none
      .ok ⟨t, modifier, instruction⟩
    | _ => .error "maneuver: missing type"
  | _ => .error "maneuver: expected object"

/-- Modelled from the spec: deserialize a step object, reading only the
recognized fields `geometry`, `distance`, `name` and `maneuver`; banner/voice/
intersection and other extension keys are never consulted. -/
def deserializeStep : Json → Except String Osrm.RouteStep
  | .obj fields =>
    match lookupKey fields "geometry" with
    | some (.str g) =>
      match lookupKey fields "distance" with
      | some (.num d) =>
        match lookupKey fields "name" with
        | some (.str n) =>
          match lookupKey fields "maneuver" with
          | some m =>
            match deserializeManeuver m with
            | .error e => .error e
            | .ok man => .ok ⟨g, d, n, man⟩
          | none => .error "step: missing maneuver"
        | _ => .error "step: missing name"
      | _ => .error "step: missing distance"
    | _ => .error "step: missing geometry"
  | _ => .error "step: expected object"

/-- Modelled from the spec: deserialize a leg object, reading only `steps`. -/
def deserializeLeg : Json → Except String Osrm.RouteLeg
  | .obj fields =>
    match lookupKey fields "steps" with
    | some (.arr steps) =>
      match tryMap deserializeStep steps with
      | .error e => .error e
      | .ok ss => .ok ⟨ss⟩
    | _ => .error "leg: missing steps"
  | _ => .error "leg: expected object"

/-- Modelled from the spec: deserialize a route object, reading only
`geometry` and `legs`. -/
def deserializeRoute : Json → Except String Osrm.OsrmRoute
  | .obj fields =>
    match lookupKey fields "geometry" with
    | some (.str g) =>
      match lookupKey fields "legs" with
      | some (.arr legs) =>
        match tryMap deserializeLeg legs with
        | .error e => .error e
        | .ok ls => .ok ⟨g, ls⟩
      | _ => .error "route: missing legs"
    | _ => .error "route: missing geometry"
  | _ => .error "route: expected object"

/-- Modelled from the spec: deserialize the top-level response, reading only
`routes` and `waypoints`. -/
def deserializeResponse : Json → Except String Osrm.RouteResponse
  | .obj fields =>
    match lookupKey fields "routes" with
    | some (.arr routes) =>
      match lookupKey fields "waypoints" with
      | some (.arr wps) =>
        match tryMap deserializeRoute routes with
        | .error e => .error e
        | .ok rs =>
          match tryMap deserializeWaypoint wps with
          | .error e => .error e
          | .ok ws => .ok ⟨rs, ws⟩
      | _ => .error "response: missing waypoints"
    | _ => .error "response: missing routes"
  | _ => .error "response: expected object"

/-- The full pipeline of OsrmResponseParser::parse_response: JSON
deserialization against the tolerant schema, then route conversion. -/
def parse_response_json (j : Json) (polyline_precision : ℕ) :
    Except String (List Route) :=
  match deserializeResponse j with
  | .error e => .error e
  | .ok res => parse_response res polyline_precision

/- ---------------------------------------------------------------------------
Recognized-field projections.  projResponse extracts exactly the part of a
JSON response the tolerant schema reads; `deserializeResponse` is proved to
factor through it, which is the formal content of "unrecognized extension
fields are simply ignored".
--------------------------------------------------------------------------- -/

/-- A single-entry object fragment for a key that may be absent. -/
def entryFrag (k : String) : Option Json → List (String × Json)
  | some v => [(k, v)]
  | none => []

/-- Recognized fields of a maneuver object. -/
def projManeuver : Json → Json
  | .obj fields =>
    .obj (entryFrag "type" (lookupKey fields "type") ++
      entryFrag "modifier" (lookupKey fields "modifier") ++
      entryFrag "instruction" (lookupKey fields "instruction"))
  | j => j

/-- Apply a projection to each element of an array. -/
def projArr (f : Json → Json) : Json → Json
  | .arr elems => .arr (elems.map f)
  | j => j

/-- Recognized fields of a step object. -/
def projStep : Json → Json
  | .obj fields =>
    .obj (entryFrag "geometry" (lookupKey fields "geometry") ++
      entryFrag "distance" (lookupKey fields "distance") ++
      entryFrag "name" (lookupKey fields "name") ++
      entryFrag "maneuver" ((lookupKey fields "maneuver").map projManeuver))
  | j => j

/-- Recognized fields of a leg object. -/
def projLeg : Json → Json
  | .obj fields =>
    .obj (entryFrag "steps" ((lookupKey fields "steps").map (projArr projStep)))
  | j => j

/-- Recognized fields of a route object. -/
def projRoute : Json → Json
  | .obj fields =>
    .obj (entryFrag "geometry" (lookupKey fields "geometry") ++
      entryFrag "legs" ((lookupKey fields "legs").map (projArr projLeg)))
  | j => j

/-- Recognized fields of a waypoint object. -/
def projWaypoint : Json → Json
  | .obj fields =>
    .obj (entryFrag "location" (lookupKey fields "location"))
  | j => j

/-- Recognized fields of a response object. -/
def projResponse : Json → Json
  | .obj fields =>
    .obj (entryFrag "routes" ((lookupKey fields "routes").map (projArr projRoute)) ++
      entryFrag "waypoints" ((lookupKey fields "waypoints").map (projArr projWaypoint)))
  | j => j

/- ---------------------------------------------------------------------------
Navigation controller models
(src/common/ferrostar/src/navigation_controller/models.rs).
--------------------------------------------------------------------------- -/

/-- A geo LineString, as an ordered coordinate sequence. -/
abbrev LineString := List GeographicCoordinates

/-- Modelled from the spec: "UserLocation — a location fix: coordinate,
horizontal accuracy, and optional motion attributes (course, speed)"; the
crate-root definition is not under src/. -/
structure UserLocation where
  coordinates : GeographicCoordinates
  horizontal_accuracy : ℚ
  course : Option ℚ
  speed : Option ℚ
deriving DecidableEq

/-- TripState (navigation_controller/models.rs lines 5-25): the internal state
of the navigation controller. -/
inductive TripState where
  | Navigating
      (last_user_location : UserLocation)
      (snapped_user_location : UserLocation)
      (route : Route)
      (route_linestring : LineString)
      (remaining_waypoints : List GeographicCoordinates)
      (remaining_steps : List RouteStep)
      (current_step_linestring : LineString) : TripState
  | Complete : TripState
deriving DecidableEq

/-- NavigationStateUpdate (navigation_controller/models.rs lines 29-43): the
public update pushed to the user of the controller. -/
inductive NavigationStateUpdate where
  | Navigating
      (snapped_user_location : UserLocation)
      (remaining_waypoints : List GeographicCoordinates)
      (current_step : RouteStep)
      (distance_to_next_maneuver : ℚ) : NavigationStateUpdate
  | Arrived : NavigationStateUpdate
deriving DecidableEq

/-- StepAdvanceStatus (navigation_controller/models.rs lines 45-51). -/
inductive StepAdvanceStatus where
  | Advanced (step : RouteStep) (linestring : LineString) : StepAdvanceStatus
  | EndOfRoute : StepAdvanceStatus

/-- A u16 value: a natural number below 2^16. -/
abbrev U16 := Fin 65536

/-- StepAdvanceMode (navigation_controller/models.rs lines 53-75).  All of
`distance`, `minimum_horizontal_accuracy` and `automatic_advance_distance`
are `u16` in the source, embedded here as `Fin 65536`. -/
inductive StepAdvanceMode where
  | Manual : StepAdvanceMode
  | DistanceToEndOfStep
      (distance : U16)
      (minimum_horizontal_accuracy : U16) : StepAdvanceMode
  | RelativeLineStringDistance
      (minimum_horizontal_accuracy : U16)
      (automatic_advance_distance : Option U16) : StepAdvanceMode

/-- NavigationControllerConfig (navigation_controller/models.rs lines 77-80). -/
structure NavigationControllerConfig where
  step_advance : StepAdvanceMode

/-- The numeric advancement thresholds (in meters) carried by a
StepAdvanceMode configuration, as natural numbers. -/
def StepAdvanceMode.thresholds : StepAdvanceMode → List ℕ
  | .Manual => []
  | .DistanceToEndOfStep distance minimum_horizontal_accuracy =>
    [distance.val, minimum_horizontal_accuracy.val]
  | .RelativeLineStringDistance minimum_horizontal_accuracy automatic_advance_distance =>
    minimum_horizontal_accuracy.val ::
      (match automatic_advance_distance with
        | some d => [d.val]
        | none => [])

/-- Modelled from the spec (section 4.4, operation `advance`, step 1): "If
state is `Complete`, return `Arrived` idempotently (no panic, no further
mutation)."  The NavigationController itself is not under src/; only the
Complete branch is fixed by the spec, so the behavior on a Navigating state is
taken as an arbitrary parameter `onNavigating` — the claims proved below hold
for every such behavior. -/
def advance
    (onNavigating : TripState → UserLocation → TripState × NavigationStateUpdate)
    (state : TripState) (new_location : UserLocation) :
    TripState × NavigationStateUpdate :=
  match state with
  | .Complete => (.Complete, .Arrived)
  | s => onNavigating s new_location

/-- Feed a sequence of location fixes through `advance`, collecting the
emitted updates in order. -/
def advanceAll
    (onNavigating : TripState → UserLocation → TripState × NavigationStateUpdate) :
    TripState → List UserLocation → TripState × List NavigationStateUpdate
  | state, [] => (state, [])
  | state, loc :: locs =>
    let (state', update) := advance onNavigating state loc
    let (finalState, updates) := advanceAll onNavigating state' locs
    (finalState, update :: updates)

/- ---------------------------------------------------------------------------
Helper lemmas
--------------------------------------------------------------------------- -/

theorem getLast?_cons_of_ne_nil {α : Type} (a : α) {l : List α} (h : l ≠ []) :
    (a :: l).getLast? = l.getLast? := by
  cases l with
  | nil => exact absurd rfl h
  | cons b t => simp [List.getLast?_cons_cons]

theorem tryMap_ok_mem {α β : Type} {f : α → Except String β} :
    ∀ {l : List α} {bs : List β}, tryMap f l = .ok bs →
      ∀ b ∈ bs, ∃ a ∈ l, f a = .ok b := by
  intro l
  induction l with
  | nil =>
    intro bs h b hb
    simp only [tryMap] at h
    cases h
    simp at hb
  | cons a as ih =>
    intro bs h b hb
    simp only [tryMap] at h
    rcases hfa : f a with e | b0 <;> rw [hfa] at h
    · cases h
    · rcases hrest : tryMap f as with e | bs0 <;> rw [hrest] at h
      · cases h
      · cases h
        rcases List.mem_cons.mp hb with rfl | hmem
        · exact ⟨a, List.mem_cons_self a as, hfa⟩
        · obtain ⟨a', ha', hfa'⟩ := ih hrest b hmem
          exact ⟨a', List.mem_cons_of_mem a ha', hfa'⟩

theorem tryMap_error_of_mem {α β : Type} {f : α → Except String β} :
    ∀ {l : List α} {a : α}, a ∈ l → (∃ e, f a = .error e) →
      ∃ e, tryMap f l = .error e := by
  intro l
  induction l with
  | nil => intro a ha; simp at ha
  | cons hd tl ih =>
    intro a ha ⟨e, he⟩
    simp only [tryMap]
    rcases hfhd : f hd with e0 | b0
    · exact ⟨e0, rfl⟩
    · rcases List.mem_cons.mp ha with rfl | hmem
      · rw [hfhd] at he; cases he
      · obtain ⟨e1, he1⟩ := ih hmem ⟨e, he⟩
        rw [he1]
        exact ⟨e1, rfl⟩

theorem tryMap_map_congr {α β : Type} {f : α → Except String β} {g : α → α}
    (hfg : ∀ a, f (g a) = f a) : ∀ l : List α, tryMap f (l.map g) = tryMap f l := by
  intro l
  induction l with
  | nil => rfl
  | cons a as ih => simp only [List.map, tryMap, hfg, ih]

end Ferrostar

namespace Ferrostar

/- ---------------------------------------------------------------------------
C1: RouteStep start/end locations against the decoded step geometry.
--------------------------------------------------------------------------- -/

/-- C1: for every successfully parsed RouteStep, start_location equals the
first coordinate of the step's decoded polyline geometry, and end_location
equals the last decoded coordinate when the geometry has more than one point,
or equals start_location when the geometry decodes to exactly one point. -/
theorem step_start_end_invariant (value : Osrm.RouteStep) (p : ℕ) (rs : RouteStep)
    (h : RouteStep.from_osrm value p = .ok rs) :
    ∃ coords : List GeographicCoordinates,
      decode_polyline value.geometry p = .ok coords ∧
      coords.head? = some rs.start_location ∧
      (1 < coords.length → coords.getLast? = some rs.end_location) ∧
      (coords.length = 1 → rs.end_location = rs.start_location) := by
  unfold RouteStep.from_osrm at h
  rcases hd : decode_polyline value.geometry p with e | coords <;> rw [hd] at h
  · cases h
  · match coords with
    | [] => cases h
    | start :: rest =>
      simp only [Except.ok.injEq] at h
      subst h
      refine ⟨start :: rest, rfl, rfl, ?_, ?_⟩
      · intro hlen
        have hne : rest ≠ [] := by
          intro hnil
          rw [hnil] at hlen
          simp at hlen
        rw [getLast?_cons_of_ne_nil start hne]
        rcases hlast : rest.getLast? with _ | x
        · exact absurd (List.getLast?_eq_none_iff.mp hlast) hne
        · simp [hlast]
      · intro hlen
        have hnil : rest = [] := by
          cases rest with
          | nil => rfl
          | cons b t => simp at hlen
        simp [hnil]

/-- Concrete step used by the C1 witness: a two-point polyline at precision 5,
from (0, 0) to (0.00001, 0.00001). -/
def c1Step : Osrm.RouteStep :=
  { geometry := "??AA", distance := 100, name := "Main Street"
    maneuver := { maneuverType := "turn", modifier := some "left", instruction := none } }

/-- The RouteStep that parsing `c1Step` produces. -/
def c1RS : RouteStep :=
  { start_location := ⟨0, 0⟩, end_location := ⟨1 / 100000, 1 / 100000⟩
    distance := 100, road_name := "Main Street", instruction := "turn left" }

theorem step_start_end_invariant_witness :
    ∃ coords : List GeographicCoordinates,
      decode_polyline c1Step.geometry 5 = .ok coords ∧
      coords.head? = some c1RS.start_location ∧
      (1 < coords.length → coords.getLast? = some c1RS.end_location) ∧
      (coords.length = 1 → c1RS.end_location = c1RS.start_location) :=
  step_start_end_invariant c1Step 5 c1RS (by with_unfolding_all rfl)

/- ---------------------------------------------------------------------------
C2: the parsed RouteStep does not retain the decoded geometry.
--------------------------------------------------------------------------- -/

/-- A maneuver with an explicit instruction, shared by the C2 inputs. -/
def c2Maneuver : Osrm.Maneuver :=
  { maneuverType := "turn", modifier := some "left", instruction := some "Turn left" }

/-- Three-point step geometry (0,0) → (0.00001,0.00001) → (0.00002,0.00002). -/
def c2StepA : Osrm.RouteStep :=
  { geometry := "??AAAA", distance := 100, name := "", maneuver := c2Maneuver }

/-- Two-point step geometry (0,0) → (0.00002,0.00002): same endpoints as
`c2StepA` but a different decoded coordinate sequence. -/
def c2StepB : Osrm.RouteStep :=
  { geometry := "??CC", distance := 100, name := "", maneuver := c2Maneuver }

/-- The identical RouteStep that parsing either C2 input produces. -/
def c2RS : RouteStep :=
  { start_location := ⟨0, 0⟩, end_location := ⟨2 / 100000, 2 / 100000⟩
    distance := 100, road_name := "", instruction := "Turn left" }

/-- C2 is false as stated: two steps with different decoded geometries (three
points versus two) parse to the very same RouteStep value, so the produced
RouteStep cannot carry (or even determine) its own decoded geometry — the
struct literal in from_osrm retains only the five scalar fields. -/
theorem routestep_carries_no_geometry :
    RouteStep.from_osrm c2StepA 5 = .ok c2RS ∧
    RouteStep.from_osrm c2StepB 5 = .ok c2RS ∧
    decode_polyline c2StepA.geometry 5 ≠ decode_polyline c2StepB.geometry 5 := by
  refine ⟨by with_unfolding_all rfl, by with_unfolding_all rfl, ?_⟩
  have hA : decode_polyline c2StepA.geometry 5 =
      .ok [⟨0, 0⟩, ⟨1 / 100000, 1 / 100000⟩, ⟨2 / 100000, 2 / 100000⟩] := by
    with_unfolding_all rfl
  have hB : decode_polyline c2StepB.geometry 5 =
      .ok [⟨0, 0⟩, ⟨2 / 100000, 2 / 100000⟩] := by
    with_unfolding_all rfl
  rw [hA, hB]
  intro h
  injection h with h'
  exact absurd (congrArg List.length h') (by simp)

/-- C2 amended: every RouteStep produced by the parser is derived from a
decoded geometry of at least one point and consists exactly of
start_location, end_location, distance, road_name and instruction — the
decoded coordinate sequence itself is not retained on the step. -/
theorem routestep_fields_characterization (value : Osrm.RouteStep) (p : ℕ)
    (rs : RouteStep) (h : RouteStep.from_osrm value p = .ok rs) :
    ∃ start rest, decode_polyline value.geometry p = .ok (start :: rest) ∧
      rs = { start_location := start
             end_location := rest.getLast?.getD start
             distance := value.distance
             road_name := value.name
             instruction := value.maneuver.get_instruction } := by
  unfold RouteStep.from_osrm at h
  rcases hd : decode_polyline value.geometry p with e | coords <;> rw [hd] at h
  · cases h
  · match coords with
    | [] => cases h
    | start :: rest =>
      simp only [Except.ok.injEq] at h
      exact ⟨start, rest, rfl, h.symm⟩

theorem routestep_fields_characterization_witness :
    ∃ start rest, decode_polyline c2StepB.geometry 5 = .ok (start :: rest) ∧
      c2RS = { start_location := start
               end_location := rest.getLast?.getD start
               distance := c2StepB.distance
               road_name := c2StepB.name
               instruction := c2StepB.maneuver.get_instruction } :=
  routestep_fields_characterization c2StepB 5 c2RS (by with_unfolding_all rfl)

/- ---------------------------------------------------------------------------
C4: a step whose geometry decodes to the empty sequence is rejected.
--------------------------------------------------------------------------- -/

/-- A step whose polyline text is empty, so its geometry decodes to the empty
coordinate sequence. -/
def emptyGeomStep : Osrm.RouteStep :=
  { geometry := "", distance := 0, name := ""
    maneuver := { maneuverType := "arrive", modifier := none, instruction := none } }

/-- C4 is false as stated only in the message text: the ParseError produced
for an empty step geometry carries "No coordinates in geometry" (capital N),
not "no coordinates in geometry" as the claim quotes. -/
theorem empty_geometry_message_counterexample :
    RouteStep.from_osrm emptyGeomStep 6 = .error "No coordinates in geometry" ∧
    "No coordinates in geometry" ≠ "no coordinates in geometry" := by
  refine ⟨by with_unfolding_all rfl, by decide⟩

/-- C4 amended: for every step whose polyline geometry decodes to an empty
coordinate sequence, parsing fails with a ParseError carrying the message
"No coordinates in geometry" (capital N), and parsing never succeeds for such
a step. -/
theorem empty_geometry_rejected (value : Osrm.RouteStep) (p : ℕ)
    (h : decode_polyline value.geometry p = .ok []) :
    RouteStep.from_osrm value p = .error "No coordinates in geometry" ∧
    ∀ rs, RouteStep.from_osrm value p ≠ .ok rs := by
  unfold RouteStep.from_osrm
  rw [h]
  exact ⟨rfl, by simp⟩

theorem empty_geometry_rejected_witness :
    RouteStep.from_osrm emptyGeomStep 6 = .error "No coordinates in geometry" ∧
    ∀ rs, RouteStep.from_osrm emptyGeomStep 6 ≠ .ok rs :=
  empty_geometry_rejected emptyGeomStep 6 (by with_unfolding_all rfl)

/- ---------------------------------------------------------------------------
C3: any parsing failure is terminal — no partial route list is returned.
--------------------------------------------------------------------------- -/

theorem from_osrm_error_of_bad_geometry {s : Osrm.RouteStep} {p : ℕ}
    (h : (∃ e, decode_polyline s.geometry p = .error e) ∨
      decode_polyline s.geometry p = .ok []) :
    ∃ e, RouteStep.from_osrm s p = .error e := by
  unfold RouteStep.from_osrm
  rcases h with ⟨e, he⟩ | he <;> rw [he]
  · exact ⟨e, rfl⟩
  · exact ⟨"No coordinates in geometry", rfl⟩

theorem parseRoute_error_of_failure {r : Osrm.OsrmRoute} {p : ℕ}
    (wps : List GeographicCoordinates)
    (h : (∃ e, decode_polyline r.geometry p = .error e) ∨
      ∃ leg ∈ r.legs, ∃ s ∈ leg.steps,
        (∃ e, decode_polyline s.geometry p = .error e) ∨
        decode_polyline s.geometry p = .ok []) :
    ∃ e, parseRoute wps p r = .error e := by
  unfold parseRoute
  rcases h with ⟨e, he⟩ | ⟨leg, hleg, s, hs, hbad⟩
  · rw [he]; exact ⟨e, rfl⟩
  · rcases hd : decode_polyline r.geometry p with e | g
    · exact ⟨e, rfl⟩
    · have hmem : s ∈ r.legs.flatMap Osrm.RouteLeg.steps :=
        List.mem_flatMap.mpr ⟨leg, hleg, hs⟩
      obtain ⟨e1, he1⟩ := @tryMap_error_of_mem _ _
        (fun step => RouteStep.from_osrm step p) _ _ hmem
        (from_osrm_error_of_bad_geometry hbad)
      rw [he1]
      exact ⟨e1, rfl⟩

/-- C3: if any part of the response fails to parse — the JSON deserialization
stage itself, a polyline decoding failure in any route's or any step's
geometry, or an empty step geometry — the parser returns an error and no
routes at all: never a partially populated Route. -/
theorem parse_failure_is_terminal (j : Json) (p : ℕ)
    (h : (∃ e, deserializeResponse j = .error e) ∨
      ∃ res, deserializeResponse j = .ok res ∧
        ∃ r ∈ res.routes,
          (∃ e, decode_polyline r.geometry p = .error e) ∨
          ∃ leg ∈ r.legs, ∃ s ∈ leg.steps,
            (∃ e, decode_polyline s.geometry p = .error e) ∨
            decode_polyline s.geometry p = .ok []) :
    ∃ e, parse_response_json j p = .error e := by
  unfold parse_response_json
  rcases h with ⟨e, he⟩ | ⟨res, hres, r, hr, hbad⟩
  · rw [he]; exact ⟨e, rfl⟩
  · rw [hres]
    unfold parse_response
    exact tryMap_error_of_mem hr (parseRoute_error_of_failure _ hbad)

/-- A response whose single route carries the truncated polyline "A" (a
latitude delta with no longitude delta). -/
def c3Json : Json :=
  .obj [("routes", .arr [.obj [("geometry", .str "A"), ("legs", .arr [])]]),
    ("waypoints", .arr [])]

/-- The deserialized form of `c3Json`. -/
def c3Response : Osrm.RouteResponse :=
  { routes := [{ geometry := "A", legs := [] }], waypoints := [] }

theorem parse_failure_is_terminal_witness :
    ∃ e, parse_response_json c3Json 6 = .error e :=
  parse_failure_is_terminal c3Json 6
    (Or.inr ⟨c3Response, by with_unfolding_all rfl,
      { geometry := "A", legs := [] }, List.mem_singleton.mpr rfl,
      Or.inl ⟨"Cannot decode polyline: unpaired coordinate delta",
        by with_unfolding_all rfl⟩⟩)

/- ---------------------------------------------------------------------------
C6: the waypoint list is converted once and copied into every Route.
--------------------------------------------------------------------------- -/

/-- C6: every Route of a successful parse holds the same waypoint list,
namely the conversion of the response's top-level waypoints array. -/
theorem waypoints_shared_across_routes (res : Osrm.RouteResponse) (p : ℕ)
    (routes : List Route) (h : parse_response res p = .ok routes) :
    (∀ r ∈ routes, r.waypoints = res.waypoints.map fun waypoint =>
        { lat := waypoint.location.latitude, lng := waypoint.location.longitude
          : GeographicCoordinates }) ∧
    ∀ r1 ∈ routes, ∀ r2 ∈ routes, r1.waypoints = r2.waypoints := by
  unfold parse_response at h
  have hwp : ∀ r ∈ routes, r.waypoints = res.waypoints.map fun waypoint =>
      { lat := waypoint.location.latitude, lng := waypoint.location.longitude
        : GeographicCoordinates } := by
    intro r hr
    obtain ⟨a, _, hfa⟩ := tryMap_ok_mem h r hr
    unfold parseRoute at hfa
    rcases hd : decode_polyline a.geometry p with e | g <;> rw [hd] at hfa
    · cases hfa
    · rcases ht : tryMap (fun step => RouteStep.from_osrm step p)
          (a.legs.flatMap Osrm.RouteLeg.steps) with e | steps <;> rw [ht] at hfa
      · cases hfa
      · cases hfa; rfl
  exact ⟨hwp, fun r1 h1 r2 h2 => (hwp r1 h1).trans (hwp r2 h2).symm⟩

/-- A response with two routes and one waypoint, used by the C6 witness. -/
def c6Response : Osrm.RouteResponse :=
  { routes := [{ geometry := "??AA", legs := [] }, { geometry := "??CC", legs := [] }]
    waypoints := [{ location := { lng := 13, lat := 52 } }] }

/-- The routes `c6Response` parses to at precision 6. -/
def c6Routes : List Route :=
  [{ geometry := [⟨0, 0⟩, ⟨1 / 1000000, 1 / 1000000⟩]
     waypoints := [⟨52, 13⟩], steps := [] },
   { geometry := [⟨0, 0⟩, ⟨2 / 1000000, 2 / 1000000⟩]
     waypoints := [⟨52, 13⟩], steps := [] }]

theorem waypoints_shared_across_routes_witness :
    (∀ r ∈ c6Routes, r.waypoints = c6Response.waypoints.map fun waypoint =>
        { lat := waypoint.location.latitude, lng := waypoint.location.longitude
          : GeographicCoordinates }) ∧
    ∀ r1 ∈ c6Routes, ∀ r2 ∈ c6Routes, r1.waypoints = r2.waypoints :=
  waypoints_shared_across_routes c6Response 6 c6Routes (by with_unfolding_all rfl)

/- ---------------------------------------------------------------------------
C9: an empty top-level routes array parses to Ok with no routes.
--------------------------------------------------------------------------- -/

/-- C9: parsing a well-formed response whose routes array is empty succeeds
and returns the empty route sequence. -/
theorem empty_routes_parses_ok (j : Json) (p : ℕ) (res : Osrm.RouteResponse)
    (h1 : deserializeResponse j = .ok res) (h2 : res.routes = []) :
    parse_response_json j p = .ok [] := by
  unfold parse_response_json
  rw [h1]
  show parse_response res p = .ok []
  unfold parse_response
  rw [h2]
  rfl

/-- A well-formed response with no routes. -/
def c9Json : Json :=
  .obj [("routes", .arr []),
    ("waypoints", .arr [.obj [("location", .arr [.num 13, .num 52])]])]

theorem empty_routes_parses_ok_witness : parse_response_json c9Json 6 = .ok [] :=
  empty_routes_parses_ok c9Json 6
    { routes := [], waypoints := [{ location := { lng := 13, lat := 52 } }] }
    (by with_unfolding_all rfl) rfl

/- ---------------------------------------------------------------------------
C8: Complete is a terminal state of the trip state machine.
--------------------------------------------------------------------------- -/

/-- C8: once TripState is Complete, every subsequent call to advance — for any
input location, any number of calls, and any behavior of the state machine on
Navigating states — returns Arrived and leaves the state Complete. -/
theorem complete_state_is_terminal
    (onNavigating : TripState → UserLocation → TripState × NavigationStateUpdate)
    (locs : List UserLocation) :
    advanceAll onNavigating .Complete locs =
      (.Complete, locs.map fun _ => .Arrived) := by
  induction locs with
  | nil => rfl
  | cons l ls ih =>
    simp only [advanceAll, advance, ih, List.map]

/- ---------------------------------------------------------------------------
C10: all step-advance thresholds are u16 values.
--------------------------------------------------------------------------- -/

/-- C10: every advancement threshold (distance, minimum_horizontal_accuracy,
automatic_advance_distance) carried by any StepAdvanceMode configuration is a
16-bit unsigned integer: a whole number of meters at most 65535. -/
theorem step_advance_thresholds_are_u16 (m : StepAdvanceMode) (t : ℕ)
    (h : t ∈ m.thresholds) : t ≤ 65535 := by
  cases m with
  | Manual => simp [StepAdvanceMode.thresholds] at h
  | DistanceToEndOfStep d acc =>
    have hd := d.isLt
    have ha := acc.isLt
    simp [StepAdvanceMode.thresholds] at h
    rcases h with rfl | rfl <;> omega
  | RelativeLineStringDistance acc auto =>
    have ha := acc.isLt
    cases auto with
    | none =>
      simp [StepAdvanceMode.thresholds] at h
      subst h
      omega
    | some d =>
      have hd := d.isLt
      simp [StepAdvanceMode.thresholds] at h
      rcases h with rfl | rfl <;> omega

theorem step_advance_thresholds_are_u16_witness : (10 : ℕ) ≤ 65535 :=
  step_advance_thresholds_are_u16
    (.DistanceToEndOfStep ⟨10, by norm_num⟩ ⟨5, by norm_num⟩) 10 (by decide)

/- ---------------------------------------------------------------------------
C5: the deserializer reads only the recognized fields, so extension-laden
and minimal responses with the same recognized content parse identically.
--------------------------------------------------------------------------- -/

theorem lookupKey_here {k : String} (v : Option Json) (rest : List (String × Json))
    (h : lookupKey rest k = none) : lookupKey (entryFrag k v ++ rest) k = v := by
  cases v with
  | none => simpa [entryFrag] using h
  | some j => simp [entryFrag, lookupKey]

theorem lookupKey_there {k k' : String} (v : Option Json) (rest : List (String × Json))
    (h : ¬ k = k') : lookupKey (entryFrag k v ++ rest) k' = lookupKey rest k' := by
  cases v <;> simp [entryFrag, lookupKey, h]

theorem lookupKey_last_here {k : String} (v : Option Json) :
    lookupKey (entryFrag k v) k = v := by
  cases v <;> simp [entryFrag, lookupKey]

theorem lookupKey_last_there {k k' : String} (v : Option Json) (h : ¬ k = k') :
    lookupKey (entryFrag k v) k' = none := by
  cases v <;> simp [entryFrag, lookupKey, h]

theorem deserializeManeuver_proj (j : Json) :
    deserializeManeuver (projManeuver j) = deserializeManeuver j := by
  cases j with
  | obj fields =>
    have h1 : lookupKey (entryFrag "type" (lookupKey fields "type") ++
        (entryFrag "modifier" (lookupKey fields "modifier") ++
          entryFrag "instruction" (lookupKey fields "instruction"))) "type" =
        lookupKey fields "type" :=
      lookupKey_here _ _ (by
        rw [lookupKey_there _ _ (by decide), lookupKey_last_there _ (by decide)])
    have h2 : lookupKey (entryFrag "type" (lookupKey fields "type") ++
        (entryFrag "modifier" (lookupKey fields "modifier") ++
          entryFrag "instruction" (lookupKey fields "instruction"))) "modifier" =
        lookupKey fields "modifier" := by
      rw [lookupKey_there _ _ (by decide)]
      exact lookupKey_here _ _ (lookupKey_last_there _ (by decide))
    have h3 : lookupKey (entryFrag "type" (lookupKey fields "type") ++
        (entryFrag "modifier" (lookupKey fields "modifier") ++
          entryFrag "instruction" (lookupKey fields "instruction"))) "instruction" =
        lookupKey fields "instruction" := by
      rw [lookupKey_there _ _ (by decide), lookupKey_there _ _ (by decide)]
      exact lookupKey_last_here _
    simp only [projManeuver, deserializeManeuver, List.append_assoc, h1, h2, h3]
  | null => rfl
  | bool b => rfl
  | num q => rfl
  | str s => rfl
  | arr elems => rfl

theorem deserializeStep_proj (j : Json) :
    deserializeStep (projStep j) = deserializeStep j := by
  cases j with
  | obj fields =>
    have h1 : lookupKey (entryFrag "geometry" (lookupKey fields "geometry") ++
        (entryFrag "distance" (lookupKey fields "distance") ++
          (entryFrag "name" (lookupKey fields "name") ++
            entryFrag "maneuver" ((lookupKey fields "maneuver").map projManeuver))))
        "geometry" = lookupKey fields "geometry" :=
      lookupKey_here _ _ (by
        rw [lookupKey_there _ _ (by decide), lookupKey_there _ _ (by decide),
          lookupKey_last_there _ (by decide)])
    have h2 : lookupKey (entryFrag "geometry" (lookupKey fields "geometry") ++
        (entryFrag "distance" (lookupKey fields "distance") ++
          (entryFrag "name" (lookupKey fields "name") ++
            entryFrag "maneuver" ((lookupKey fields "maneuver").map projManeuver))))
        "distance" = lookupKey fields "distance" := by
      rw [lookupKey_there _ _ (by decide)]
      exact lookupKey_here _ _ (by
        rw [lookupKey_there _ _ (by decide), lookupKey_last_there _ (by decide)])
    have h3 : lookupKey (entryFrag "geometry" (lookupKey fields "geometry") ++
        (entryFrag "distance" (lookupKey fields "distance") ++
          (entryFrag "name" (lookupKey fields "name") ++
            entryFrag "maneuver" ((lookupKey fields "maneuver").map projManeuver))))
        "name" = lookupKey fields "name" := by
      rw [lookupKey_there _ _ (by decide), lookupKey_there _ _ (by decide)]
      exact lookupKey_here _ _ (lookupKey_last_there _ (by decide))
    have h4 : lookupKey (entryFrag "geometry" (lookupKey fields "geometry") ++
        (entryFrag "distance" (lookupKey fields "distance") ++
          (entryFrag "name" (lookupKey fields "name") ++
            entryFrag "maneuver" ((lookupKey fields "maneuver").map projManeuver))))
        "maneuver" = (lookupKey fields "maneuver").map projManeuver := by
      rw [lookupKey_there _ _ (by decide), lookupKey_there _ _ (by decide),
        lookupKey_there _ _ (by decide)]
      exact lookupKey_last_here _
    simp only [projStep, deserializeStep, List.append_assoc, h1, h2, h3, h4]
    rcases hm : lookupKey fields "maneuver" with _ | jm <;>
      simp [deserializeManeuver_proj]
  | null => rfl
  | bool b => rfl
  | num q => rfl
  | str s => rfl
  | arr elems => rfl

theorem deserializeLeg_proj (j : Json) :
    deserializeLeg (projLeg j) = deserializeLeg j := by
  cases j with
  | obj fields =>
    have h1 : lookupKey (entryFrag "steps"
        ((lookupKey fields "steps").map (projArr projStep))) "steps" =
        (lookupKey fields "steps").map (projArr projStep) :=
      lookupKey_last_here _
    simp only [projLeg, deserializeLeg, h1]
    rcases hs : lookupKey fields "steps" with _ | js
    · rfl
    · cases js <;> simp [projArr, tryMap_map_congr deserializeStep_proj]
  | null => rfl
  | bool b => rfl
  | num q => rfl
  | str s => rfl
  | arr elems => rfl

theorem deserializeRoute_proj (j : Json) :
    deserializeRoute (projRoute j) = deserializeRoute j := by
  cases j with
  | obj fields =>
    have h1 : lookupKey (entryFrag "geometry" (lookupKey fields "geometry") ++
        entryFrag "legs" ((lookupKey fields "legs").map (projArr projLeg)))
        "geometry" = lookupKey fields "geometry" :=
      lookupKey_here _ _ (lookupKey_last_there _ (by decide))
    have h2 : lookupKey (entryFrag "geometry" (lookupKey fields "geometry") ++
        entryFrag "legs" ((lookupKey fields "legs").map (projArr projLeg)))
        "legs" = (lookupKey fields "legs").map (projArr projLeg) := by
      rw [lookupKey_there _ _ (by decide)]
      exact lookupKey_last_here _
    simp only [projRoute, deserializeRoute, h1, h2]
    rcases hl : lookupKey fields "legs" with _ | jl
    · rfl
    · cases jl <;> simp [projArr, tryMap_map_congr deserializeLeg_proj]
  | null => rfl
  | bool b => rfl
  | num q => rfl
  | str s => rfl
  | arr elems => rfl

theorem deserializeWaypoint_proj (j : Json) :
    deserializeWaypoint (projWaypoint j) = deserializeWaypoint j := by
  cases j with
  | obj fields =>
    have h1 : lookupKey (entryFrag "location" (lookupKey fields "location"))
        "location" = lookupKey fields "location" :=
      lookupKey_last_here _
    simp only [projWaypoint, deserializeWaypoint, h1]
  | null => rfl
  | bool b => rfl
  | num q => rfl
  | str s => rfl
  | arr elems => rfl

theorem deserializeResponse_proj (j : Json) :
    deserializeResponse (projResponse j) = deserializeResponse j := by
  cases j with
  | obj fields =>
    have h1 : lookupKey (entryFrag "routes"
        ((lookupKey fields "routes").map (projArr projRoute)) ++
        entryFrag "waypoints" ((lookupKey fields "waypoints").map (projArr projWaypoint)))
        "routes" = (lookupKey fields "routes").map (projArr projRoute) :=
      lookupKey_here _ _ (lookupKey_last_there _ (by decide))
    have h2 : lookupKey (entryFrag "routes"
        ((lookupKey fields "routes").map (projArr projRoute)) ++
        entryFrag "waypoints" ((lookupKey fields "waypoints").map (projArr projWaypoint)))
        "waypoints" = (lookupKey fields "waypoints").map (projArr projWaypoint) := by
      rw [lookupKey_there _ _ (by decide)]
      exact lookupKey_last_here _
    simp only [projResponse, deserializeResponse, h1, h2]
    rcases hr : lookupKey fields "routes" with _ | jr
    · rfl
    · cases jr <;>
        rcases hw : lookupKey fields "waypoints" with _ | jw <;>
        first
        | rfl
        | (cases jw <;>
            simp [projArr, tryMap_map_congr deserializeRoute_proj,
              tryMap_map_congr deserializeWaypoint_proj])
  | null => rfl
  | bool b => rfl
  | num q => rfl
  | str s => rfl
  | arr elems => rfl

/-- C5: the parser reads only the recognized subset of the response — any two
responses (one minimal, one carrying extra banner/voice/intersection/
annotation keys) whose recognized projections agree parse to identical
results: the same success/failure, the same Routes, the same geometry
sequences and the same RouteStep fields.  Unrecognized extension keys can
never cause a failure. -/
theorem dialect_tolerant_parsing (j1 j2 : Json) (p : ℕ)
    (h : projResponse j1 = projResponse j2) :
    parse_response_json j1 p = parse_response_json j2 p := by
  unfold parse_response_json
  rw [← deserializeResponse_proj j1, ← deserializeResponse_proj j2, h]

/-- Minimal strict-schema response: one route with one leg and one step. -/
def c5Minimal : Json :=
  .obj [("routes", .arr [.obj [("geometry", .str "??AA"),
      ("legs", .arr [.obj [("steps", .arr [.obj [("geometry", .str "??AA"),
        ("distance", .num 100), ("name", .str "Main Street"),
        ("maneuver", .obj [("type", .str "turn"),
          ("modifier", .str "left")])]])]])]]),
    ("waypoints", .arr [.obj [("location", .arr [.num 13, .num 52])]])]

/-- The same recognized content as `c5Minimal`, wrapped in extension fields
(banner/voice/intersection/annotation and other dialect extras). -/
def c5Extended : Json :=
  .obj [("code", .str "Ok"),
    ("routes", .arr [.obj [("duration", .num 260),
      ("geometry", .str "??AA"),
      ("weight_name", .str "routability"),
      ("legs", .arr [.obj [("summary", .str ""),
        ("annotation", .obj [("distance", .arr [.num 1])]),
        ("steps", .arr [.obj [("bannerInstructions", .arr [.obj [("text", .str "x")]]),
          ("voiceInstructions", .arr [.obj [("announcement", .str "x")]]),
          ("geometry", .str "??AA"),
          ("intersections", .arr [.obj [("bearings", .arr [.num 254])]]),
          ("distance", .num 100), ("driving_side", .str "right"),
          ("mode", .str "walking"), ("name", .str "Main Street"),
          ("maneuver", .obj [("bearing_after", .num 254),
            ("type", .str "turn"), ("modifier", .str "left"),
            ("location", .arr [.num 13, .num 52])]),
          ("weight", .num 92)]])]]),
      ("weight", .num 633)]]),
    ("waypoints", .arr [.obj [("hint", .str "Dv8JgCp3moUX"),
      ("name", .str "Friedrichstrasse"),
      ("location", .arr [.num 13, .num 52])]])]

/-- The single RouteStep both C5 responses parse to at precision 6. -/
def c5RouteStep : RouteStep :=
  { start_location := ⟨0, 0⟩, end_location := ⟨1 / 1000000, 1 / 1000000⟩
    distance := 100, road_name := "Main Street", instruction := "turn left" }

/-- The single Route both C5 responses parse to at precision 6. -/
def c5Route : Route :=
  { geometry := [⟨0, 0⟩, ⟨1 / 1000000, 1 / 1000000⟩]
    waypoints := [⟨52, 13⟩], steps := [c5RouteStep] }

theorem dialect_tolerant_parsing_witness :
    parse_response_json c5Minimal 6 = parse_response_json c5Extended 6 ∧
    parse_response_json c5Minimal 6 = .ok [c5Route] :=
  ⟨dialect_tolerant_parsing c5Minimal c5Extended 6 (by with_unfolding_all rfl),
   by with_unfolding_all rfl⟩

/- ---------------------------------------------------------------------------
C7: the Berlin-area fixture (tests::parse_standard_osrm).
--------------------------------------------------------------------------- -/

/-- The encoded Berlin-area polyline of STANDARD_OSRM_POLYLINE6_RESPONSE. -/
def berlinPolyline : String :=
  "qikdcB\x7b~dpXmxRbaBuqAoqKyy@svFwNcfKzsAysMdr@evD\x60m@qrAohBi\x7dA\x7bOkdGjg@ajDZww@lJ\x7dJrs@\x7d\x60CvzBq\x60E\x60PiB\x60~A|l@z@feA"

/-- The Berlin-area standard OSRM response (osrm/mod.rs line 99), as a JSON
value: one route with the encoded polyline above, two legs with empty step
arrays, and three waypoints. -/
def berlinJson : Json :=
  .obj [("code", .str "Ok"),
    ("routes", .arr [.obj [("geometry", .str berlinPolyline),
      ("legs", .arr [
        .obj [("steps", .arr []), ("summary", .str ""), ("weight", .num 263.1),
          ("duration", .num 260.2), ("distance", .num 1886.3)],
        .obj [("steps", .arr []), ("summary", .str ""), ("weight", .num 370.5),
          ("duration", .num 370.5), ("distance", .num 2845.5)]]),
      ("weight_name", .str "routability"), ("weight", .num 633.6),
      ("duration", .num 630.7), ("distance", .num 4731.8)]]),
    ("waypoints", .arr [
      .obj [("hint", .str "Dv8JgCp3moUX"), ("distance", .num 4.231521214),
        ("name", .str "Friedrichstrasse"),
        ("location", .arr [.num 13.388798, .num 52.517033])],
      .obj [("hint", .str "JEvdgVmFioc"), ("distance", .num 2.795148358),
        ("name", .str "Torstrasse"),
        ("location", .arr [.num 13.39763, .num 52.529432])],
      .obj [("hint", .str "oSkYgP"), ("distance", .num 2.226580806),
        ("name", .str "Platz der Vereinten Nationen"),
        ("location", .arr [.num 13.428554, .num 52.523239])]])]

/-- The 18 coordinate pairs the Berlin polyline decodes to at precision 6
(the expected_coords fixture of tests::parse_standard_osrm). -/
def berlinCoords : List GeographicCoordinates :=
  [⟨52517033 / 1000000, 13388798 / 1000000⟩,
   ⟨52527168 / 1000000, 13387228 / 1000000⟩,
   ⟨52528491 / 1000000, 13393668 / 1000000⟩,
   ⟨52529432 / 1000000, 13397630 / 1000000⟩,
   ⟨52529684 / 1000000, 13403888 / 1000000⟩,
   ⟨52528326 / 1000000, 13411389 / 1000000⟩,
   ⟨52527507 / 1000000, 13414320 / 1000000⟩,
   ⟨52526770 / 1000000, 13415657 / 1000000⟩,
   ⟨52528458 / 1000000, 13417166 / 1000000⟩,
   ⟨52528728 / 1000000, 13421348 / 1000000⟩,
   ⟨52528082 / 1000000, 13424085 / 1000000⟩,
   ⟨52528068 / 1000000, 13424993 / 1000000⟩,
   ⟨52527885 / 1000000, 13425184 / 1000000⟩,
   ⟨52527043 / 1000000, 13427263 / 1000000⟩,
   ⟨52525063 / 1000000, 13430360 / 1000000⟩,
   ⟨52524790 / 1000000, 13430413 / 1000000⟩,
   ⟨52523269 / 1000000, 13429678 / 1000000⟩,
   ⟨52523239 / 1000000, 13428554 / 1000000⟩]

/-- The single Route the Berlin response parses to. -/
def berlinRoute : Route :=
  { geometry := berlinCoords
    waypoints := [⟨52517033 / 1000000, 13388798 / 1000000⟩,
      ⟨52529432 / 1000000, 13397630 / 1000000⟩,
      ⟨52523239 / 1000000, 13428554 / 1000000⟩]
    steps := [] }

/-- C7: parsing the Berlin-area response at precision 6 succeeds and yields
exactly one route, whose geometry is the literal sequence of 18 (lat, lng)
pairs beginning (52.517033, 13.388798). -/
theorem berlin_fixture_parses_exactly :
    parse_response_json berlinJson 6 = .ok [berlinRoute] ∧
    berlinCoords.length = 18 ∧
    berlinCoords.head? = some ⟨52.517033, 13.388798⟩ := by
  refine ⟨by with_unfolding_all rfl, by rfl, by with_unfolding_all rfl⟩

end Ferrostar
